import Mathlib

/-!
Shallow embedding of `kaeru.go` (package kaeru): a reflection-driven
converter from decoded generic values (as produced by JSON decoding)
into typed Go values, driven by `Parse<Kind>` hook interfaces.

Modelling conventions:
* Go's `reflect.Kind` is `Kind`; the kinds `Complex64/128` and `Uintptr`
  are omitted (the source never branches on them; they would take the
  same default paths as other unlisted kinds).
* Go types are `GoType`; struct field lists are the mutually inductive
  `GoFields` so that recursion over types stays structural (and hence
  kernel-computable).  Method sets attach to named types only, via a
  hook environment mapping a named type's name to its `Hooks`.
* Go values are `GoVal`; a zero `reflect.Value` (absent input) is
  `GoVal.invalid`.  Values of chan/func/unsafe-pointer kinds, whose
  payload the source never inspects, are `GoVal.other`.
* Float payloads are modelled as exact integers (`Int`); every float the
  repository's tests and the spec's scenarios exercise is integral, and
  no claim depends on rounding.
* Mutation is modelled by returning the new value of the output
  location; `PRes.err` carries the (possibly partially mutated) state of
  the output location at the point of failure, and `PRes.panic` models a
  Go panic (a fatal, non-recoverable failure).
-/

/-- Reflection kind, mirroring `reflect.Kind` as used by the source
(`rawPtr` stands for `reflect.UnsafePointer`). -/
inductive Kind where
  | invalid
  | bool
  | int
  | int8
  | int16
  | int32
  | int64
  | uint
  | uint8
  | uint16
  | uint32
  | uint64
  | float32
  | float64
  | string
  | array
  | chan
  | func
  | interface
  | map
  | pointer
  | slice
  | struct
  | rawPtr
deriving DecidableEq, Repr

mutual

/-- Go static types.  `rawPtr` models `unsafe.Pointer`, `iface` models
interface types (only the empty interface `any` occurs in this
program), and `named n u` is a defined type with name `n` and
underlying type `u` (the carrier of method sets, hence of hooks). -/
inductive GoType where
  | bool
  | int
  | int8
  | int16
  | int32
  | int64
  | uint
  | uint8
  | uint16
  | uint32
  | uint64
  | float32
  | float64
  | string
  | ptr (elem : GoType)
  | slice (elem : GoType)
  | array (len : Nat) (elem : GoType)
  | mapT (key val : GoType)
  | structT (fields : GoFields)
  | iface
  | chanT (elem : GoType)
  | funcT
  | rawPtr
  | named (name : String) (underlying : GoType)

/-- Struct field list: each field carries its Go name, its `parse` tag
(empty when the field has no tag), whether reflection reports it as
settable (false for unexported fields), and its type. -/
inductive GoFields where
  | nil
  | cons (name tag : String) (settable : Bool) (ty : GoType) (rest : GoFields)

end

mutual

/-- Structural equality of Go types, mirroring Go's `==` on
`reflect.Type` (type identity). -/
def GoType.beq : (a b : GoType) → Bool
  | .bool, .bool => true
  | .int, .int => true
  | .int8, .int8 => true
  | .int16, .int16 => true
  | .int32, .int32 => true
  | .int64, .int64 => true
  | .uint, .uint => true
  | .uint8, .uint8 => true
  | .uint16, .uint16 => true
  | .uint32, .uint32 => true
  | .uint64, .uint64 => true
  | .float32, .float32 => true
  | .float64, .float64 => true
  | .string, .string => true
  | .ptr a, .ptr b => GoType.beq a b
  | .slice a, .slice b => GoType.beq a b
  | .array m a, .array n b => m = n && GoType.beq a b
  | .mapT k v, .mapT k' v' => GoType.beq k k' && GoType.beq v v'
  | .structT fs, .structT gs => GoFields.beq fs gs
  | .iface, .iface => true
  | .chanT a, .chanT b => GoType.beq a b
  | .funcT, .funcT => true
  | .rawPtr, .rawPtr => true
  | .named n a, .named m b => n = m && GoType.beq a b
  | _, _ => false
termination_by structural a => a

/-- Structural equality of struct field lists. -/
def GoFields.beq : (a b : GoFields) → Bool
  | .nil, .nil => true
  | .cons n t s ty r, .cons n' t' s' ty' r' =>
      n = n' && t = t' && s = s' && GoType.beq ty ty' && GoFields.beq r r'
  | _, _ => false
termination_by structural a => a

end

mutual

/-- Reflexivity of type equality. -/
theorem tyBeqRefl : ∀ t : GoType, GoType.beq t t = true
  | .bool => rfl
  | .int => rfl
  | .int8 => rfl
  | .int16 => rfl
  | .int32 => rfl
  | .int64 => rfl
  | .uint => rfl
  | .uint8 => rfl
  | .uint16 => rfl
  | .uint32 => rfl
  | .uint64 => rfl
  | .float32 => rfl
  | .float64 => rfl
  | .string => rfl
  | .ptr a => tyBeqRefl a
  | .slice a => tyBeqRefl a
  | .array m a => by
      show (decide (m = m) && GoType.beq a a) = true
      simp [tyBeqRefl a]
  | .mapT k v => by
      show (GoType.beq k k && GoType.beq v v) = true
      simp [tyBeqRefl k, tyBeqRefl v]
  | .structT fs => fieldsBeqRefl fs
  | .iface => rfl
  | .chanT a => tyBeqRefl a
  | .funcT => rfl
  | .rawPtr => rfl
  | .named n a => by
      show (decide (n = n) && GoType.beq a a) = true
      simp [tyBeqRefl a]
termination_by structural t => t

/-- Reflexivity of field-list equality. -/
theorem fieldsBeqRefl : ∀ fs : GoFields, GoFields.beq fs fs = true
  | .nil => rfl
  | .cons n t s ty r => by
      show (decide (n = n) && decide (t = t) && decide (s = s) &&
        GoType.beq ty ty && GoFields.beq r r) = true
      simp [tyBeqRefl ty, fieldsBeqRefl r]
termination_by structural fs => fs

end

/-- Kind of a type (`reflect.Type.Kind()`); a named type has the kind of
its underlying type. -/
def GoType.kind : GoType → Kind
  | .bool => .bool
  | .int => .int
  | .int8 => .int8
  | .int16 => .int16
  | .int32 => .int32
  | .int64 => .int64
  | .uint => .uint
  | .uint8 => .uint8
  | .uint16 => .uint16
  | .uint32 => .uint32
  | .uint64 => .uint64
  | .float32 => .float32
  | .float64 => .float64
  | .string => .string
  | .ptr _ => .pointer
  | .slice _ => .slice
  | .array _ _ => .array
  | .mapT _ _ => .map
  | .structT _ => .struct
  | .iface => .interface
  | .chanT _ => .chan
  | .funcT => .func
  | .rawPtr => .rawPtr
  | .named _ u => u.kind

/-- Strip `named` wrappers, exposing the underlying structural type. -/
def GoType.unwrapNamed : GoType → GoType
  | .named _ u => u.unwrapNamed
  | t => t

/-- Element type of a pointer type (junk on non-pointers, which the
source never queries). -/
def GoType.ptrElem (t : GoType) : GoType :=
  match t.unwrapNamed with
  | .ptr e => e
  | _ => t

/-- Element type of a slice or array type. -/
def GoType.elemT (t : GoType) : GoType :=
  match t.unwrapNamed with
  | .slice e => e
  | .array _ e => e
  | _ => t

/-- Key type of a map type. -/
def GoType.keyT (t : GoType) : GoType :=
  match t.unwrapNamed with
  | .mapT k _ => k
  | _ => t

/-- Value type of a map type. -/
def GoType.valT (t : GoType) : GoType :=
  match t.unwrapNamed with
  | .mapT _ v => v
  | _ => t

/-- Field list of a struct type. -/
def GoType.structFields (t : GoType) : GoFields :=
  match t.unwrapNamed with
  | .structT fs => fs
  | _ => .nil

/-- Declared length of an array type. -/
def GoType.arrayLen (t : GoType) : Nat :=
  match t.unwrapNamed with
  | .array n _ => n
  | _ => 0

/-- Go dynamic values, mirroring the `reflect.Value`s the source
manipulates.  `invalid` is the zero `reflect.Value` (an absent input);
`ifaceV` is a value of interface kind (`Elem` unwraps it, a `none`
payload being a nil interface); `other` covers chan/func/unsafe-pointer
values whose payload the source never inspects.  The constructor of a
well-formed value matches the kind of its type. -/
inductive GoVal where
  | invalid
  | boolV (t : GoType) (b : Bool)
  | intV (t : GoType) (n : Int)
  | uintV (t : GoType) (n : Nat)
  | floatV (t : GoType) (x : Int)
  | stringV (t : GoType) (s : String)
  | sliceV (t : GoType) (elems : List GoVal)
  | mapV (t : GoType) (entries : List (GoVal × GoVal))
  | structV (t : GoType) (fields : List GoVal)
  | arrayV (t : GoType) (elems : List GoVal)
  | ptrV (t : GoType) (pointee : Option GoVal)
  | ifaceV (v : Option GoVal)
  | other (t : GoType)

/-- Static type of a value; outputs are never `invalid`, for which the
result is an arbitrary default. -/
def GoVal.type : GoVal → GoType
  | .invalid => .iface
  | .boolV t _ => t
  | .intV t _ => t
  | .uintV t _ => t
  | .floatV t _ => t
  | .stringV t _ => t
  | .sliceV t _ => t
  | .mapV t _ => t
  | .structV t _ => t
  | .arrayV t _ => t
  | .ptrV t _ => t
  | .ifaceV _ => .iface
  | .other t => t

/-- Dynamic type as an option: `none` for the zero `reflect.Value`. -/
def GoVal.type? : GoVal → Option GoType
  | .invalid => none
  | v => some v.type

/-- Kind of a value (`reflect.Value.Kind()`). -/
def GoVal.kind : GoVal → Kind
  | .invalid => .invalid
  | v => v.type.kind

/-- Replace the static type of a value (used when converting between
types of the same kind). -/
def GoVal.retype (t : GoType) : GoVal → GoVal
  | .invalid => .invalid
  | .boolV _ b => .boolV t b
  | .intV _ n => .intV t n
  | .uintV _ n => .uintV t n
  | .floatV _ x => .floatV t x
  | .stringV _ s => .stringV t s
  | .sliceV _ xs => .sliceV t xs
  | .mapV _ es => .mapV t es
  | .structV _ fs => .structV t fs
  | .arrayV _ xs => .arrayV t xs
  | .ptrV _ p => .ptrV t p
  | .ifaceV v => .ifaceV v
  | .other _ => .other t

mutual

/-- Zero value of a type (`reflect.New(t).Elem()`; also what
`reflect.MakeSlice` fills fresh elements with). -/
def zeroVal : (t : GoType) → GoVal
  | .bool => .boolV .bool false
  | .int => .intV .int 0
  | .int8 => .intV .int8 0
  | .int16 => .intV .int16 0
  | .int32 => .intV .int32 0
  | .int64 => .intV .int64 0
  | .uint => .uintV .uint 0
  | .uint8 => .uintV .uint8 0
  | .uint16 => .uintV .uint16 0
  | .uint32 => .uintV .uint32 0
  | .uint64 => .uintV .uint64 0
  | .float32 => .floatV .float32 0
  | .float64 => .floatV .float64 0
  | .string => .stringV .string ""
  | .ptr e => .ptrV (.ptr e) none
  | .slice e => .sliceV (.slice e) []
  | .array n e => .arrayV (.array n e) (List.replicate n (zeroVal e))
  | .mapT k v => .mapV (.mapT k v) []
  | .structT fs => .structV (.structT fs) (zeroFields fs)
  | .iface => .ifaceV none
  | .chanT e => .other (.chanT e)
  | .funcT => .other .funcT
  | .rawPtr => .other .rawPtr
  | .named n u => (zeroVal u).retype (.named n u)
termination_by structural t => t

/-- Zero values of a struct's fields, in declaration order. -/
def zeroFields : (fs : GoFields) → List GoVal
  | .nil => []
  | .cons _ _ _ ty rest => zeroVal ty :: zeroFields rest
termination_by structural fs => fs

end

/-- Outcome of operating on an output location of type `α`:  `ok` carries
the new value of the location, `err` carries a recoverable error message
together with the (possibly partially mutated) value of the location,
and `panic` models a Go panic. -/
inductive PRes (α : Type) where
  | ok (val : α)
  | err (msg : String) (val : α)
  | panic (msg : String)

/-- Result of converting into a single output location. -/
abbrev Res := PRes GoVal

/-- Lift a hook's return (the hook either rewrites its receiver or
reports an error, leaving the receiver as it was) into a `Res`. -/
def hookRes (r : Except String GoVal) (out : GoVal) : Res :=
  match r with
  | .ok v => .ok v
  | .error e => .err e out

/-- The capability hooks a named type may implement, mirroring the
interface declarations of the source one for one (there is no
`ParseBool` and no generic `ParseUint` interface in the source).  Each
hook receives its argument and the current value of its receiver and
returns the new receiver value or an error; `SetDefault` cannot fail. -/
structure Hooks where
  parseAny : Option (GoVal → GoVal → Except String GoVal)
  parseInt : Option (Int → GoVal → Except String GoVal)
  parseString : Option (String → GoVal → Except String GoVal)
  parseInt8 : Option (Int → GoVal → Except String GoVal)
  parseInt16 : Option (Int → GoVal → Except String GoVal)
  parseInt32 : Option (Int → GoVal → Except String GoVal)
  parseInt64 : Option (Int → GoVal → Except String GoVal)
  parseUint8 : Option (Nat → GoVal → Except String GoVal)
  parseUint16 : Option (Nat → GoVal → Except String GoVal)
  parseUint32 : Option (Nat → GoVal → Except String GoVal)
  parseUint64 : Option (Nat → GoVal → Except String GoVal)
  parseFloat32 : Option (Int → GoVal → Except String GoVal)
  parseFloat64 : Option (Int → GoVal → Except String GoVal)
  parseStringMap : Option (List (String × String) → GoVal → Except String GoVal)
  parseMap : Option (List (String × GoVal) → GoVal → Except String GoVal)
  parseSlice : Option (List GoVal → GoVal → Except String GoVal)
  parseStringSlice : Option (List String → GoVal → Except String GoVal)
  setDefault : Option (GoVal → GoVal)

/-- The empty method set. -/
def noHooks : Hooks :=
  ⟨none, none, none, none, none, none, none, none, none,
   none, none, none, none, none, none, none, none, none⟩

/-- Hook environment: which hooks each named type implements (Go
methods attach to defined types). -/
abbrev HookEnv := List (String × Hooks)

/-- Look up the hooks of a named type. -/
def lookupHooks : HookEnv → String → Hooks
  | [], _ => noHooks
  | (m, h) :: rest, n => if m = n then h else lookupHooks rest n

/-- Method set of a type, as consulted by the source's
`outVal.Addr().Interface().(ParseX)` capability checks. -/
def hooksOf (env : HookEnv) : GoType → Hooks
  | .named n _ => lookupHooks env n
  | _ => noHooks

/-- Two's-complement wrap of an integer to a signed width (Go's
`intN(x)` conversion). -/
def wrapS (w : Nat) (n : Int) : Int :=
  (n + 2 ^ (w - 1)) % 2 ^ w - 2 ^ (w - 1)

/-- Wrap of a natural to an unsigned width (Go's `uintN(x)`). -/
def wrapU (w : Nat) (n : Nat) : Nat := n % 2 ^ w

/-- Wrap of an integer to an unsigned width. -/
def wrapUI (w : Nat) (n : Int) : Nat := (n % (2 ^ w : Int)).toNat

/-- The source's `isPrimitive` over kinds (lines 188-208 of kaeru.go). -/
def isPrimitive : Kind → Bool
  | .bool | .int | .int8 | .int16 | .int32 | .int64
  | .uint | .uint8 | .uint16 | .uint32 | .uint64
  | .float32 | .float64 | .string => true
  | _ => false

/-- Input kinds the engine rejects with a panic (the switch at the top
of `parseValue`, lines 125-134). -/
def badInKind : Kind → Bool
  | .array | .chan | .func | .pointer | .struct | .rawPtr => true
  | _ => false

/-- Signed integer kinds. -/
def isIntKind : Kind → Bool
  | .int | .int8 | .int16 | .int32 | .int64 => true
  | _ => false

/-- Unsigned integer kinds. -/
def isUintKind : Kind → Bool
  | .uint | .uint8 | .uint16 | .uint32 | .uint64 => true
  | _ => false

/-- Float kinds. -/
def isFloatKind : Kind → Bool
  | .float32 | .float64 => true
  | _ => false

/-- Numeric kinds. -/
def isNumericKind (k : Kind) : Bool :=
  isIntKind k || isUintKind k || isFloatKind k

/-- Whether a type is (after unwrapping names) a byte or rune slice,
the slice types a Go string converts to. -/
def isByteRuneSliceT (t : GoType) : Bool :=
  match t.unwrapNamed with
  | .slice e => e.kind = Kind.uint8 || e.kind = Kind.int32
  | _ => false

/-- Model of Go's `reflect.Value.CanConvert` restricted to the
conversions reachable from `parsePrimitive` (the input is always of
primitive kind there): any value converts to an interface type, numeric
kinds interconvert, string kinds interconvert, integers convert to
string kinds (code-point rule), strings convert to byte/rune slices,
and bool converts only to bool kinds. -/
def canConvert (tin tout : GoType) : Bool :=
  let ki := tin.kind
  let ko := tout.kind
  if ko = Kind.interface then true
  else if isNumericKind ki && isNumericKind ko then true
  else if ki = Kind.string && ko = Kind.string then true
  else if (isIntKind ki || isUintKind ki) && ko = Kind.string then true
  else if ki = Kind.string && isByteRuneSliceT tout then true
  else if ki = Kind.bool && ko = Kind.bool then true
  else false

/-- Go's integer-to-string conversion: the one-rune string of the code
point, or the replacement character for invalid code points. -/
def intToStringGo (n : Int) : String :=
  if n < 0 then "�"
  else if Nat.isValidChar n.toNat then String.singleton (Char.ofNat n.toNat)
  else "�"

/-- Convert a numeric payload to a numeric (or string) kind target type.
Integer targets wrap two's-complement; float payloads being modelled as
exact integers, conversion to and from floats carries the payload over
unchanged. -/
def numRetype (n : Int) (t : GoType) : GoVal :=
  match t.kind with
  | .int => .intV t (wrapS 64 n)
  | .int8 => .intV t (wrapS 8 n)
  | .int16 => .intV t (wrapS 16 n)
  | .int32 => .intV t (wrapS 32 n)
  | .int64 => .intV t (wrapS 64 n)
  | .uint => .uintV t (wrapUI 64 n)
  | .uint8 => .uintV t (wrapUI 8 n)
  | .uint16 => .uintV t (wrapUI 16 n)
  | .uint32 => .uintV t (wrapUI 32 n)
  | .uint64 => .uintV t (wrapUI 64 n)
  | .float32 => .floatV t n
  | .float64 => .floatV t n
  | .string => .stringV t (intToStringGo n)
  | _ => .intV t n

/-- Model of `reflect.Value.Convert` on the conversions `canConvert`
admits. -/
def convertVal (v : GoVal) (tout : GoType) : GoVal :=
  if tout.kind = Kind.interface then .ifaceV (some v)
  else
    match v with
    | .boolV _ b => .boolV tout b
    | .intV _ n => numRetype n tout
    | .uintV _ n => numRetype (n : Int) tout
    | .floatV _ x => numRetype x tout
    | .stringV _ s =>
        if tout.kind = Kind.string then .stringV tout s
        else
          match tout.unwrapNamed with
          | .slice e =>
              if e.kind = Kind.uint8 then
                .sliceV tout (s.toUTF8.toList.map (fun b => .uintV e b.toNat))
              else
                .sliceV tout (s.data.map (fun c => .intV e (c.toNat : Int)))
          | _ => v
    | w => w

/-- Model of `fmt`'s `%s` formatting of a `reflect.Value` operand, as
used in the source's map-entry error messages.  String-kind values
print as their contents and an interface operand prints as the value it
holds; for other kinds the claims never inspect the text, so integer
and bool operands get `fmt`'s mismatched-verb form and composites a
summary token. -/
def fmtValCore : GoVal → String
  | .stringV _ s => s
  | .intV _ n => "%!s(int=" ++ toString n ++ ")"
  | .uintV _ n => "%!s(uint=" ++ toString n ++ ")"
  | .boolV _ b => "%!s(bool=" ++ (if b then "true" else "false") ++ ")"
  | .floatV _ x => "%!s(float=" ++ toString x ++ ")"
  | _ => "<value>"

/-- Formatting of a possibly interface-wrapped value. -/
def fmtVal : GoVal → String
  | .ifaceV (some v) => fmtValCore v
  | .ifaceV none => "<nil>"
  | v => fmtValCore v

/-- Textual kind names (`reflect.Kind.String()`), used in the
"unsupported kinds" error message. -/
def kindName : Kind → String
  | .invalid => "invalid"
  | .bool => "bool"
  | .int => "int"
  | .int8 => "int8"
  | .int16 => "int16"
  | .int32 => "int32"
  | .int64 => "int64"
  | .uint => "uint"
  | .uint8 => "uint8"
  | .uint16 => "uint16"
  | .uint32 => "uint32"
  | .uint64 => "uint64"
  | .float32 => "float32"
  | .float64 => "float64"
  | .string => "string"
  | .array => "array"
  | .chan => "chan"
  | .func => "func"
  | .interface => "interface"
  | .map => "map"
  | .pointer => "ptr"
  | .slice => "slice"
  | .struct => "struct"
  | .rawPtr => "unsafe.Pointer"

/-- Textual type names (`reflect.Type.String()` up to the level of
detail the claims need), used in "not parseable" error messages. -/
def typeName : (t : GoType) → String
  | .bool => "bool"
  | .int => "int"
  | .int8 => "int8"
  | .int16 => "int16"
  | .int32 => "int32"
  | .int64 => "int64"
  | .uint => "uint"
  | .uint8 => "uint8"
  | .uint16 => "uint16"
  | .uint32 => "uint32"
  | .uint64 => "uint64"
  | .float32 => "float32"
  | .float64 => "float64"
  | .string => "string"
  | .ptr e => "*" ++ typeName e
  | .slice e => "[]" ++ typeName e
  | .array n e => "[" ++ toString n ++ "]" ++ typeName e
  | .mapT k v => "map[" ++ typeName k ++ "]" ++ typeName v
  | .structT _ => "struct"
  | .iface => "interface"
  | .chanT e => "chan " ++ typeName e
  | .funcT => "func"
  | .rawPtr => "unsafe.Pointer"
  | .named n _ => n
termination_by structural t => t

/-- The `case reflect.Int` arm of `parsePrimitive`'s switch: try
`ParseInt` (argument `int(inVal.Int())`), else leave the switch. -/
def caseInt (h : Hooks) (n : Int) (out : GoVal) (fb : Res) : Res :=
  match h.parseInt with
  | some f => hookRes (f (wrapS 64 n) out) out
  | none => fb

/-- The `case reflect.Int64` arm: try `ParseInt64`, else fall through. -/
def caseInt64 (h : Hooks) (n : Int) (out : GoVal) (fb : Res) : Res :=
  match h.parseInt64 with
  | some f => hookRes (f (wrapS 64 n) out) out
  | none => caseInt h n out fb

/-- The `case reflect.Int32` arm: try `ParseInt32`, else fall through. -/
def caseInt32 (h : Hooks) (n : Int) (out : GoVal) (fb : Res) : Res :=
  match h.parseInt32 with
  | some f => hookRes (f (wrapS 32 n) out) out
  | none => caseInt64 h n out fb

/-- The `case reflect.Int16` arm: try `ParseInt16`, else fall through. -/
def caseInt16 (h : Hooks) (n : Int) (out : GoVal) (fb : Res) : Res :=
  match h.parseInt16 with
  | some f => hookRes (f (wrapS 16 n) out) out
  | none => caseInt32 h n out fb

/-- The `case reflect.Int8` arm: try `ParseInt8`, else fall through. -/
def caseInt8 (h : Hooks) (n : Int) (out : GoVal) (fb : Res) : Res :=
  match h.parseInt8 with
  | some f => hookRes (f (wrapS 8 n) out) out
  | none => caseInt16 h n out fb

/-- The `case reflect.Uint64` arm: try `ParseUint64`, else leave the
switch (there is no fallthrough into the float cases and no generic
`ParseUint`). -/
def caseUint64 (h : Hooks) (n : Nat) (out : GoVal) (fb : Res) : Res :=
  match h.parseUint64 with
  | some f => hookRes (f (wrapU 64 n) out) out
  | none => fb

/-- The `case reflect.Uint32` arm: try `ParseUint32`, else fall
through. -/
def caseUint32 (h : Hooks) (n : Nat) (out : GoVal) (fb : Res) : Res :=
  match h.parseUint32 with
  | some f => hookRes (f (wrapU 32 n) out) out
  | none => caseUint64 h n out fb

/-- The `case reflect.Uint16` arm: try `ParseUint16`, else fall
through. -/
def caseUint16 (h : Hooks) (n : Nat) (out : GoVal) (fb : Res) : Res :=
  match h.parseUint16 with
  | some f => hookRes (f (wrapU 16 n) out) out
  | none => caseUint32 h n out fb

/-- The `case reflect.Uint8` arm: try `ParseUint8`, else fall
through. -/
def caseUint8 (h : Hooks) (n : Nat) (out : GoVal) (fb : Res) : Res :=
  match h.parseUint8 with
  | some f => hookRes (f (wrapU 8 n) out) out
  | none => caseUint16 h n out fb

/-- The `case reflect.Float64` arm: try `ParseFloat64`, else leave the
switch. -/
def caseFloat64 (h : Hooks) (x : Int) (out : GoVal) (fb : Res) : Res :=
  match h.parseFloat64 with
  | some f => hookRes (f x out) out
  | none => fb

/-- The `case reflect.Float32` arm: try `ParseFloat32`, else fall
through (float payloads are exact in this model, so the `float32(f)`
argument narrowing is the identity). -/
def caseFloat32 (h : Hooks) (x : Int) (out : GoVal) (fb : Res) : Res :=
  match h.parseFloat32 with
  | some f => hookRes (f x out) out
  | none => caseFloat64 h x out fb

/-- Conversion fallback after the hook switch (lines 280-285 of
kaeru.go): assignment-convert the value if possible, else a "not
parseable" error. -/
def primFallback (inVal out : GoVal) : Res :=
  if canConvert inVal.type out.type then .ok (convertVal inVal out.type)
  else
    .err ("inVal " ++ typeName inVal.type ++ " is not parseable to outVal "
      ++ typeName out.type) out

/-- The source's `parsePrimitive` (lines 211-286): dispatch on the
input's kind, try the matching per-kind hook, fall through to wider
hooks of the same family, then fall back to assignment conversion.
Note the switch has no `reflect.Uint` and no `reflect.Bool`-hook case;
bool inputs assign directly when the target's kind is bool. -/
def parsePrimitive (env : HookEnv) (inVal out : GoVal) : Res :=
  if ¬ isPrimitive inVal.kind then .panic "inVal must be a primitive"
  else
    let h := hooksOf env out.type
    let fb := primFallback inVal out
    match inVal with
    | .stringV _ s =>
        match h.parseString with
        | some f => hookRes (f s out) out
        | none => fb
    | .boolV _ _ =>
        if out.type.kind = Kind.bool then .ok (convertVal inVal out.type)
        else fb
    | .intV t n =>
        match t.kind with
        | .int8 => caseInt8 h n out fb
        | .int16 => caseInt16 h n out fb
        | .int32 => caseInt32 h n out fb
        | .int64 => caseInt64 h n out fb
        | .int => caseInt h n out fb
        | _ => fb
    | .uintV t n =>
        match t.kind with
        | .uint8 => caseUint8 h n out fb
        | .uint16 => caseUint16 h n out fb
        | .uint32 => caseUint32 h n out fb
        | .uint64 => caseUint64 h n out fb
        | _ => fb
    | .floatV t x =>
        match t.kind with
        | .float32 => caseFloat32 h x out fb
        | .float64 => caseFloat64 h x out fb
        | _ => fb
    | _ => fb

/-- Map lookup with a plain-string key
(`inVal.MapIndex(reflect.ValueOf(fieldName))`): the zero `reflect.Value`
when the key is missing.  Non-string-keyed input maps never match (Go
would panic on the key-type mismatch; no claim reaches that case). -/
def mapIndexStr : List (GoVal × GoVal) → String → GoVal
  | [], _ => .invalid
  | (k, v) :: rest, name =>
      match k with
      | .stringV .string s => if s = name then v else mapIndexStr rest name
      | _ => mapIndexStr rest name

/-- The field loop of `parseMapToStruct` (lines 334-357): walk the
struct's fields in declaration order alongside the current field
values, skip non-settable fields, resolve each settable field's lookup
name from its `parse` tag, fetch the input-map entry (absent when
missing) and recurse; the first field error aborts, wrapped with the
field name. -/
def parseMapToStructFields (recur : GoVal → GoVal → Res)
    (entries : List (GoVal × GoVal)) :
    (fields : GoFields) → (vals : List GoVal) → PRes (List GoVal)
  | .nil, vs => .ok vs
  | .cons _ _ _ _ _, [] => .ok []
  | .cons fname tag settable _ rest, v :: vs =>
      let name := if tag = "" then fname else tag
      if settable then
        match recur (mapIndexStr entries name) v with
        | .ok v' =>
            match parseMapToStructFields recur entries rest vs with
            | .ok vs' => .ok (v' :: vs')
            | .err e vs' => .err e (v' :: vs')
            | .panic m => .panic m
        | .err e v' => .err ("error parsing field " ++ name ++ ": " ++ e) (v' :: vs)
        | .panic m => .panic m
      else
        match parseMapToStructFields recur entries rest vs with
        | .ok vs' => .ok (v :: vs')
        | .err e vs' => .err e (v :: vs')
        | .panic m => .panic m

/-- The source's `parseMapToStruct` (lines 324-360). -/
def parseMapToStruct (recur : GoVal → GoVal → Res) (inVal out : GoVal) : Res :=
  if inVal.kind ≠ Kind.map then .panic "inVal must be a map"
  else if out.kind ≠ Kind.struct then .panic "outVal must be a struct"
  else
    match inVal, out with
    | .mapV _ entries, .structV t fvals =>
        match parseMapToStructFields recur entries t.structFields fvals with
        | .ok vs => .ok (.structV t vs)
        | .err e vs => .err e (.structV t vs)
        | .panic m => .panic m
    | _, _ => .panic "inVal must be a map"

/-- The entry loop of `parseMapToMap` (lines 302-317): convert each
entry's key and value into freshly allocated slots of the output map's
key/value types; a key failure is wrapped naming the key, a value
failure is wrapped naming the value. -/
def parseMapToMapEntries (recur : GoVal → GoVal → Res) (keyT valT : GoType) :
    List (GoVal × GoVal) → PRes (List (GoVal × GoVal))
  | [] => .ok []
  | (k, v) :: rest =>
      match recur k (zeroVal keyT) with
      | .err e _ => .err ("error parsing map key " ++ fmtVal k ++ ": " ++ e) []
      | .panic m => .panic m
      | .ok k' =>
          match recur v (zeroVal valT) with
          | .err e _ => .err ("error parsing map value " ++ fmtVal v ++ ": " ++ e) []
          | .panic m => .panic m
          | .ok v' =>
              match parseMapToMapEntries recur keyT valT rest with
              | .ok es => .ok ((k', v') :: es)
              | .err e es => .err e es
              | .panic m => .panic m

/-- The source's `parseMapToMap` (lines 288-322): build a fresh map and
assign it to the target only after every entry converted; on failure
the target is left as it was (the fresh map is discarded). -/
def parseMapToMap (recur : GoVal → GoVal → Res) (inVal out : GoVal) : Res :=
  if inVal.kind ≠ Kind.map then .panic "inVal must be a map"
  else if out.kind ≠ Kind.map then .panic "outVal must be a map"
  else
    match inVal, out with
    | .mapV _ entries, .mapV tOut oldEs =>
        match parseMapToMapEntries recur tOut.keyT tOut.valT entries with
        | .ok es => .ok (.mapV tOut es)
        | .err e _ => .err e (.mapV tOut oldEs)
        | .panic m => .panic m
    | _, _ => .panic "inVal must be a map"

/-- The `inVal.Interface().(map[string]string)` type assertion of
`parseMap`: succeeds exactly when the dynamic type is `map[string]string`
(named map types do not match). -/
def stringStringEntries? : GoVal → Option (List (String × String))
  | .mapV (.mapT .string .string) es =>
      some (es.filterMap fun kv =>
        match kv with
        | (.stringV _ k, .stringV _ s) => some (k, s)
        | _ => none)
  | _ => none

/-- The `inVal.Interface().(map[string]any)` type assertion of
`parseMap`. -/
def stringAnyEntries? : GoVal → Option (List (String × GoVal))
  | .mapV (.mapT .string .iface) es =>
      some (es.filterMap fun kv =>
        match kv with
        | (.stringV _ k, x) => some (k, x)
        | _ => none)
  | _ => none

/-- The source's `parseMap` (lines 362-388): whole-map hooks on exact
input types first, then struct recursion, then map recursion, else a
"not parseable" error. -/
def parseMap (env : HookEnv) (recur : GoVal → GoVal → Res)
    (inVal out : GoVal) : Res :=
  if inVal.kind ≠ Kind.map then .panic "inVal must be a map"
  else
    let h := hooksOf env out.type
    match stringStringEntries? inVal, h.parseStringMap with
    | some m, some f => hookRes (f m out) out
    | _, _ =>
      match stringAnyEntries? inVal, h.parseMap with
      | some m, some f => hookRes (f m out) out
      | _, _ =>
        if out.kind = Kind.struct then parseMapToStruct recur inVal out
        else if out.kind = Kind.map then parseMapToMap recur inVal out
        else
          .err ("inVal " ++ typeName inVal.type ++ " is not parseable to outVal "
            ++ typeName out.type) out

/-- The element loop of `parseSliceToSlice` (lines 400-405): convert
each input element into a fresh zero slot of the element type; an
element error aborts, unwrapped (the fresh slice is discarded). -/
def parseSliceToSliceElems (recur : GoVal → GoVal → Res) (elemT : GoType) :
    List GoVal → PRes (List GoVal)
  | [] => .ok []
  | x :: xs =>
      match recur x (zeroVal elemT) with
      | .ok v =>
          match parseSliceToSliceElems recur elemT xs with
          | .ok vs => .ok (v :: vs)
          | .err e vs => .err e vs
          | .panic m => .panic m
      | .err e _ => .err e []
      | .panic m => .panic m

/-- The source's `parseSliceToSlice` (lines 390-409): build a fresh
slice of the input's length and assign it to the target only after
every element converted; on failure the target is left as it was. -/
def parseSliceToSlice (recur : GoVal → GoVal → Res) (inVal out : GoVal) : Res :=
  if inVal.kind ≠ Kind.slice then .panic "inVal must be slice"
  else if out.kind ≠ Kind.slice then .panic "outVal must be slice"
  else
    match inVal, out with
    | .sliceV _ xs, .sliceV tOut oldEs =>
        match parseSliceToSliceElems recur tOut.elemT xs with
        | .ok vs => .ok (.sliceV tOut vs)
        | .err e _ => .err e (.sliceV tOut oldEs)
        | .panic m => .panic m
    | _, _ => .panic "inVal must be slice"

/-- The index loop of `parseSliceToArray` (lines 429-440): convert into
the array's existing slots in place, reading the input element at each
index and a zero `reflect.Value` (absent) past the input's end; an
element error aborts, wrapped with the index. -/
def parseSliceToArrayElems (recur : GoVal → GoVal → Res)
    (ins outs : List GoVal) (i : Nat) : PRes (List GoVal) :=
  match outs with
  | [] => .ok []
  | o :: os =>
      let p := match ins with
               | [] => (GoVal.invalid, ([] : List GoVal))
               | y :: ys => (y, ys)
      match recur p.1 o with
      | .ok v' =>
          match parseSliceToArrayElems recur p.2 os (i + 1) with
          | .ok vs => .ok (v' :: vs)
          | .err e vs => .err e (v' :: vs)
          | .panic m => .panic m
      | .err e v' =>
          .err ("error parsing element at index " ++ toString i ++ ": " ++ e) (v' :: os)
      | .panic m => .panic m

/-- The source's `parseSliceToArray` (lines 411-443): reject input
longer than the array before touching any element, else convert
index-by-index in place, treating missing trailing input as absent. -/
def parseSliceToArray (recur : GoVal → GoVal → Res) (inVal out : GoVal) : Res :=
  if inVal.kind ≠ Kind.slice then .panic "inVal must be slice"
  else if out.kind ≠ Kind.array then .panic "outVal must be array"
  else
    match inVal, out with
    | .sliceV _ xs, .arrayV tOut os =>
        if xs.length > os.length then
          .err ("input slice (length " ++ toString xs.length
            ++ ") is longer than output array (length " ++ toString os.length ++ ")")
            (.arrayV tOut os)
        else
          match parseSliceToArrayElems recur xs os 0 with
          | .ok vs => .ok (.arrayV tOut vs)
          | .err e vs => .err e (.arrayV tOut vs)
          | .panic m => .panic m
    | _, _ => .panic "inVal must be slice"

/-- The `[]string` type assertion of `parseSlice`. -/
def stringSliceElems? : GoVal → Option (List String)
  | .sliceV (.slice .string) xs =>
      some (xs.filterMap fun x =>
        match x with
        | .stringV _ s => some s
        | _ => none)
  | _ => none

/-- The `[]any` type assertion used, unchecked, when invoking the
`ParseSlice` hook. -/
def anySliceElems? : GoVal → Option (List GoVal)
  | .sliceV (.slice .iface) xs => some xs
  | _ => none

/-- The source's `parseSlice` (lines 446-470): `ParseStringSlice` on
exact `[]string` input first, then `ParseSlice` via an unchecked
`.([]any)` assertion (a panic when the input slice is any other type),
then slice recursion, then array recursion, else a "not parseable"
error. -/
def parseSlice (env : HookEnv) (recur : GoVal → GoVal → Res)
    (inVal out : GoVal) : Res :=
  if inVal.kind ≠ Kind.slice then .panic "inVal must be slice"
  else
    let h := hooksOf env out.type
    match stringSliceElems? inVal, h.parseStringSlice with
    | some s, some f => hookRes (f s out) out
    | _, _ =>
      match h.parseSlice with
      | some f =>
          match anySliceElems? inVal with
          | some xs => hookRes (f xs out) out
          | none => .panic "interface conversion: input slice is not a slice of interface values"
      | none =>
        if out.kind = Kind.slice then parseSliceToSlice recur inVal out
        else if out.kind = Kind.array then parseSliceToArray recur inVal out
        else
          .err ("inVal " ++ typeName inVal.type ++ " is not parseable to outVal "
            ++ typeName out.type) out

/-- Interface unwrap (`inVal.Elem()` when `inVal.Kind()` is
`Interface`): a nil interface yields the zero `reflect.Value`. -/
def GoVal.ifaceElem : GoVal → GoVal
  | .ifaceV (some v) => v
  | .ifaceV none => .invalid
  | v => v

/-- Lines 153-186 of `parseValue`, operating on the (possibly
pointer-unwrapped) target with the `required` flag made explicit:
absence is served by `SetDefault`, or fails when required; then the
`ParseAny` short-circuit; then the same-type fast path; then
kind-directed dispatch. -/
def parseValueCore (env : HookEnv) (recur : GoVal → GoVal → Res)
    (inVal out : GoVal) (required : Bool) : Res :=
  match inVal with
  | .invalid =>
      match (hooksOf env out.type).setDefault with
      | some f => .ok (f out)
      | none => if required then .err "inVal is nil but must be set" out else .ok out
  | _ =>
      match (hooksOf env out.type).parseAny with
      | some f => hookRes (f inVal out) out
      | none =>
          if GoType.beq inVal.type out.type then .ok inVal
          else if isPrimitive inVal.kind then parsePrimitive env inVal out
          else if inVal.kind = Kind.map then parseMap env recur inVal out
          else if inVal.kind = Kind.slice then parseSlice env recur inVal out
          else
            .err ("unsupported kinds, in: " ++ kindName inVal.kind ++ ", out: "
              ++ kindName out.kind) out

/-- One unfolding of the source's `parseValue` (lines 124-186),
parameterised by the recursive call: panic on disallowed input kinds
and on a non-settable target, unwrap an interface input, then unwrap a
pointer target — allocating its pointee eagerly when nil (lines
145-151, before absence is examined) and clearing `required` — and run
the core. -/
def parseValueStep (env : HookEnv) (recur : GoVal → GoVal → Res)
    (inVal : GoVal) (canSet : Bool) (out : GoVal) : Res :=
  if badInKind inVal.kind then .panic "inVal is not a valid parseable value"
  else if canSet = false then .panic "outVal is not settable"
  else
    let inV := if inVal.kind = Kind.interface then inVal.ifaceElem else inVal
    match out with
    | .ptrV t p =>
        let pointee := match p with
                       | some v => v
                       | none => zeroVal t.ptrElem
        match parseValueCore env recur inV pointee false with
        | .ok v => .ok (.ptrV t (some v))
        | .err e v => .err e (.ptrV t (some v))
        | .panic m => .panic m
    | _ => parseValueCore env recur inV out true

/-- The source's `parseValue`, with an explicit recursion budget (the
Go original recurses without one; every claim is stated either for an
arbitrary positive budget or at the recursion-free helpers). -/
def parseValue (env : HookEnv) : (fuel : Nat) → GoVal → Bool → GoVal → Res
  | 0, _, _, _ => .panic "recursion limit exhausted"
  | fuel + 1, inVal, canSet, out =>
      parseValueStep env (fun i o => parseValue env fuel i true o) inVal canSet out

/-- The source's `Parse` (lines 86-99): require a pointer-typed output,
then convert into its pointee (the result is the outcome over the
pointee location; `Elem` of a nil output pointer is the zero, hence
non-settable, `reflect.Value`). -/
def Parse (env : HookEnv) (fuel : Nat) (input output : GoVal) : Res :=
  if output.kind ≠ Kind.pointer then .err "output must be a pointer" output
  else
    match output with
    | .ptrV _ (some pv) => parseValue env fuel input true pv
    | .ptrV _ none => parseValue env fuel input false .invalid
    | _ => .err "output must be a pointer" output

/-- What the engine does to a non-required location on absent input:
run its `SetDefault` hook if it has one, else leave it alone. -/
def applyDefault (env : HookEnv) (v : GoVal) : GoVal :=
  match (hooksOf env v.type).setDefault with
  | some f => f v
  | none => v

/-- Prepend an already-converted slot to the outcome of converting the
remaining slots. -/
def prependRes (v : GoVal) : PRes (List GoVal) → PRes (List GoVal)
  | .ok vs => .ok (v :: vs)
  | .err e vs => .err e (v :: vs)
  | .panic m => .panic m

/-- Prepend an already-converted map entry to the outcome of converting
the remaining entries. -/
def prependEntryRes (kv : GoVal × GoVal) :
    PRes (List (GoVal × GoVal)) → PRes (List (GoVal × GoVal))
  | .ok es => .ok (kv :: es)
  | .err e es => .err e es
  | .panic m => .panic m

/-- Prefix test on character lists. -/
def isPrefixChars : List Char → List Char → Bool
  | [], _ => true
  | _ :: _, [] => false
  | c :: cs, d :: ds => c = d && isPrefixChars cs ds

/-- Substring test on character lists. -/
def charsContain : (hay needle : List Char) → Bool
  | [], needle => needle.isEmpty
  | c :: rest, needle => isPrefixChars needle (c :: rest) || charsContain rest needle

/-- Substring test (used to state whether an error message identifies a
key). -/
def strContains (hay needle : String) : Bool :=
  charsContain hay.data needle.data

/-- Whether a map key is the plain string `name`. -/
def isStrKey (k : GoVal) (name : String) : Bool :=
  match k with
  | .stringV .string s => s = name
  | _ => false

/-- The ordered hook-preference chain the dispatch follows for a
signed-integer input kind, each entry being the width the argument is
narrowed to and the hook slot consulted. -/
def signedHookChain (k : Kind) :
    List (Nat × (Hooks → Option (Int → GoVal → Except String GoVal))) :=
  match k with
  | .int8 => [(8, Hooks.parseInt8), (16, Hooks.parseInt16), (32, Hooks.parseInt32),
              (64, Hooks.parseInt64), (64, Hooks.parseInt)]
  | .int16 => [(16, Hooks.parseInt16), (32, Hooks.parseInt32),
               (64, Hooks.parseInt64), (64, Hooks.parseInt)]
  | .int32 => [(32, Hooks.parseInt32), (64, Hooks.parseInt64), (64, Hooks.parseInt)]
  | .int64 => [(64, Hooks.parseInt64), (64, Hooks.parseInt)]
  | .int => [(64, Hooks.parseInt)]
  | _ => []

/-- The ordered hook-preference chain for an unsigned-integer input
kind.  The chain for `uint8` ends at `ParseUint64`: the source defines
no generic `ParseUint` interface and its switch has no `reflect.Uint`
case, so a `uint`-kind input consults no hook at all — and no unsigned
chain ever reaches a signed hook. -/
def unsignedHookChain (k : Kind) :
    List (Nat × (Hooks → Option (Nat → GoVal → Except String GoVal))) :=
  match k with
  | .uint8 => [(8, Hooks.parseUint8), (16, Hooks.parseUint16),
               (32, Hooks.parseUint32), (64, Hooks.parseUint64)]
  | .uint16 => [(16, Hooks.parseUint16), (32, Hooks.parseUint32), (64, Hooks.parseUint64)]
  | .uint32 => [(32, Hooks.parseUint32), (64, Hooks.parseUint64)]
  | .uint64 => [(64, Hooks.parseUint64)]
  | _ => []

/-- The ordered hook-preference chain for a float input kind. -/
def floatHookChain (k : Kind) :
    List (Hooks → Option (Int → GoVal → Except String GoVal)) :=
  match k with
  | .float32 => [Hooks.parseFloat32, Hooks.parseFloat64]
  | .float64 => [Hooks.parseFloat64]
  | _ => []

/-- Run the first present hook of a signed chain on the (appropriately
narrowed) argument; fall back to `fb` when no hook of the chain is
implemented. -/
def evalIntChain (h : Hooks) (n : Int) (out : GoVal) (fb : Res) :
    List (Nat × (Hooks → Option (Int → GoVal → Except String GoVal))) → Res
  | [] => fb
  | (w, sel) :: rest =>
      match sel h with
      | some f => hookRes (f (wrapS w n) out) out
      | none => evalIntChain h n out fb rest

/-- Run the first present hook of an unsigned chain. -/
def evalUintChain (h : Hooks) (n : Nat) (out : GoVal) (fb : Res) :
    List (Nat × (Hooks → Option (Nat → GoVal → Except String GoVal))) → Res
  | [] => fb
  | (w, sel) :: rest =>
      match sel h with
      | some f => hookRes (f (wrapU w n) out) out
      | none => evalUintChain h n out fb rest

/-- Run the first present hook of a float chain (float payloads are
exact in this model, so no narrowing is applied). -/
def evalFloatChain (h : Hooks) (x : Int) (out : GoVal) (fb : Res) :
    List (Hooks → Option (Int → GoVal → Except String GoVal)) → Res
  | [] => fb
  | sel :: rest =>
      match sel h with
      | some f => hookRes (f x out) out
      | none => evalFloatChain h x out fb rest

/-- Named probe type used by witnesses exercising the numeric hook
dispatch. -/
def tyProbe : GoType := .named "Probe" .int

/-- Distinguishable value recording which hook fired. -/
def probeMark (c : Int) : GoVal := .intV tyProbe c

/-- Probe environment: `Probe` implements both `ParseInt8` and
`ParseInt32`, each recording itself. -/
def envProbe : HookEnv :=
  [("Probe",
    { noHooks with
        parseInt8 := some (fun _ _ => .ok (probeMark 8))
        parseInt32 := some (fun _ _ => .ok (probeMark 32)) })]

/-- Named type with a `SetDefault` hook, for absence witnesses. -/
def tyDflt : GoType := .named "Dflt" .int

/-- Environment in which `Dflt` populates the default value 7. -/
def envDflt : HookEnv :=
  [("Dflt", { noHooks with setDefault := some (fun _ => .intV tyDflt 7) })]

/-- Named slice type implementing only the whole-list `ParseSlice`
hook, for the unchecked-assertion witness. -/
def tyList : GoType := .named "List" (.slice .int)

/-- Environment in which `List` implements `ParseSlice`. -/
def envList : HookEnv :=
  [("List", { noHooks with parseSlice := some (fun xs _ => .ok (.sliceV tyList xs)) })]

/-- Whether a value is a pointer-shaped location (the shapes the
engine's pointer unwrap matches). -/
def isPtrVal : GoVal → Bool
  | .ptrV _ _ => true
  | _ => false

/-- Kinds admissible for the identity fast path are not rejected by the
entry switch, are not the interface kind, and are not invalid. -/
theorem primLike_kind_facts {k : Kind}
    (h : isPrimitive k = true ∨ k = Kind.map ∨ k = Kind.slice) :
    badInKind k = false ∧ k ≠ Kind.interface ∧ k ≠ Kind.invalid := by
  rcases h with h | h | h <;> cases k <;> simp_all [isPrimitive, badInKind]

/-- A value of non-invalid kind is not the zero value. -/
theorem ne_invalid_of_kind {v : GoVal} (h : v.kind ≠ Kind.invalid) :
    v ≠ GoVal.invalid := by
  intro he
  subst he
  exact h rfl

/-- Core runs the identity fast path whenever the (unwrapped) input's
dynamic type equals the target's type and no `ParseAny` hook
intervenes. -/
theorem parseValueCore_identity (env : HookEnv) (recur : GoVal → GoVal → Res)
    (inVal out : GoVal) (required : Bool)
    (hinv : inVal ≠ GoVal.invalid)
    (hany : (hooksOf env out.type).parseAny = none)
    (hbeq : GoType.beq inVal.type out.type = true) :
    parseValueCore env recur inVal out required = .ok inVal := by
  cases inVal <;> simp_all [parseValueCore]

/-- C7: for every non-absent input whose dynamic type is exactly the
target's static type (the target being a non-pointer location whose
type implements no catch-all `ParseAny` hook), conversion copies the
value into the target unchanged and succeeds, for all primitive, list,
and map input shapes. -/
theorem identity_fast_path (env : HookEnv) (fuel : Nat) (inVal out : GoVal)
    (hk : isPrimitive inVal.kind = true ∨ inVal.kind = Kind.map ∨ inVal.kind = Kind.slice)
    (hty : inVal.type = out.type)
    (hptr : isPtrVal out = false)
    (hany : (hooksOf env out.type).parseAny = none) :
    parseValue env (fuel + 1) inVal true out = .ok inVal := by
  obtain ⟨hbad, hif, hinv⟩ := primLike_kind_facts hk
  have hne := ne_invalid_of_kind hinv
  have hcore := parseValueCore_identity env
    (fun i o => parseValue env fuel i true o) inVal out true hne hany
    (by rw [hty]; exact tyBeqRefl _)
  cases out <;> simp_all [parseValue, parseValueStep, isPtrVal]

/-- Witness for C7 at a concrete string value. -/
theorem identity_fast_path_witness :
    parseValue [] 1 (.stringV .string "joe") true (.stringV .string "")
      = .ok (.stringV .string "joe") :=
  identity_fast_path [] 0 _ _ (Or.inl rfl) rfl rfl rfl

/-- C8: inputs whose kind is array, chan, func, pointer, struct or
unsafe-pointer reaching the engine directly make it panic (a fatal
failure, not a recoverable error), and so does a non-settable output
location (for inputs that survive the kind switch). -/
theorem engine_precondition_panics :
    (∀ (env : HookEnv) (fuel : Nat) (inVal out : GoVal) (canSet : Bool),
       badInKind inVal.kind = true →
       parseValue env (fuel + 1) inVal canSet out
         = .panic "inVal is not a valid parseable value")
    ∧ (∀ (env : HookEnv) (fuel : Nat) (inVal out : GoVal),
       badInKind inVal.kind = false →
       parseValue env (fuel + 1) inVal false out
         = .panic "outVal is not settable") := by
  constructor
  · intro env fuel inVal out canSet h
    simp [parseValue, parseValueStep, h]
  · intro env fuel inVal out h
    simp [parseValue, parseValueStep, h]

/-- Witness for C8: a pointer-kind input panics, and a non-settable
target panics. -/
theorem engine_precondition_panics_witness :
    parseValue [] 1 (.ptrV (.ptr .int) none) true (.intV .int 0)
      = .panic "inVal is not a valid parseable value"
    ∧ parseValue [] 1 (.stringV .string "x") false (.intV .int 0)
      = .panic "outVal is not settable" :=
  ⟨engine_precondition_panics.1 [] 0 _ _ true rfl,
   engine_precondition_panics.2 [] 0 _ _ rfl⟩

/-- C1 counterexample: converting an absent input into a nil
pointer-typed target does allocate the pointee — the pointer does not
stay nil (no hooks involved). -/
theorem optional_absent_claim_counterexample :
    parseValue [] 1 .invalid true (.ptrV (.ptr .string) none)
      = .ok (.ptrV (.ptr .string) (some (.stringV .string "")))
    ∧ GoVal.ptrV (.ptr .string) (some (.stringV .string "")) ≠ .ptrV (.ptr .string) none := by
  constructor
  · rfl
  · simp

/-- C1 (amended): converting an absent input into a pointer-typed
target never errors; when the pointer is nil the engine eagerly
allocates a zero pointee (lines 145-151 run before absence is
examined), so the pointer ends up non-nil, its pointee left at the zero
value (or at whatever `SetDefault` populates); an existing pointee is
kept as it was. -/
theorem optional_absent_eager_alloc (env : HookEnv) (fuel : Nat)
    (t : GoType) (p : Option GoVal) :
    parseValue env (fuel + 1) .invalid true (.ptrV t p)
      = .ok (.ptrV t (some (applyDefault env (p.getD (zeroVal t.ptrElem))))) := by
  cases p <;>
    · simp only [parseValue, parseValueStep, parseValueCore, applyDefault, Option.getD,
        GoVal.kind, GoVal.ifaceElem, badInKind]
      cases h : (hooksOf env _).setDefault <;> simp [h]

/-- C2 counterexample: with no hooks in scope, an absent input into a
non-required (pointer-wrapped) target succeeds but does not leave the
target untouched at its zero value — the nil pointer is replaced by a
freshly allocated pointee. -/
theorem absent_dispatch_claim_counterexample :
    parseValue [] 1 .invalid true (.ptrV (.ptr .int) none)
      = .ok (.ptrV (.ptr .int) (some (.intV .int 0)))
    ∧ GoVal.ptrV (.ptr .int) (some (.intV .int 0)) ≠ .ptrV (.ptr .int) none := by
  constructor
  · rfl
  · simp

/-- C2 (amended): on absent input, a target type implementing
`SetDefault` (directly, or as the pointee type of a pointer target,
whose pointee is allocated when nil) has the hook invoked exactly once
and conversion succeeds; a required target (not pointer-wrapped)
without the hook fails with the missing-required-value error; a
non-required (pointer-wrapped) target without the hook succeeds with
its pointee left untouched (the previous pointee, or a fresh zero one —
the pointer itself having been eagerly allocated rather than left
nil). -/
theorem absent_dispatch :
    (∀ (env : HookEnv) (fuel : Nat) (out : GoVal) (f : GoVal → GoVal),
       isPtrVal out = false →
       (hooksOf env out.type).setDefault = some f →
       parseValue env (fuel + 1) .invalid true out = .ok (f out))
    ∧ (∀ (env : HookEnv) (fuel : Nat) (t : GoType) (p : Option GoVal) (f : GoVal → GoVal),
       (hooksOf env (p.getD (zeroVal t.ptrElem)).type).setDefault = some f →
       parseValue env (fuel + 1) .invalid true (.ptrV t p)
         = .ok (.ptrV t (some (f (p.getD (zeroVal t.ptrElem))))))
    ∧ (∀ (env : HookEnv) (fuel : Nat) (out : GoVal),
       isPtrVal out = false →
       (hooksOf env out.type).setDefault = none →
       parseValue env (fuel + 1) .invalid true out
         = .err "inVal is nil but must be set" out)
    ∧ (∀ (env : HookEnv) (fuel : Nat) (t : GoType) (p : Option GoVal),
       (hooksOf env (p.getD (zeroVal t.ptrElem)).type).setDefault = none →
       parseValue env (fuel + 1) .invalid true (.ptrV t p)
         = .ok (.ptrV t (some (p.getD (zeroVal t.ptrElem))))) := by
  refine ⟨?_, ?_, ?_, ?_⟩
  · intro env fuel out f hptr hdef
    cases out <;> simp_all [parseValue, parseValueStep, parseValueCore, isPtrVal,
      GoVal.kind, GoVal.ifaceElem, badInKind]
  · intro env fuel t p f hdef
    cases p <;> simp_all [parseValue, parseValueStep, parseValueCore, Option.getD,
      GoVal.kind, GoVal.ifaceElem, badInKind]
  · intro env fuel out hptr hdef
    cases out <;> simp_all [parseValue, parseValueStep, parseValueCore, isPtrVal,
      GoVal.kind, GoVal.ifaceElem, badInKind]
  · intro env fuel t p hdef
    cases p <;> simp_all [parseValue, parseValueStep, parseValueCore, Option.getD,
      GoVal.kind, GoVal.ifaceElem, badInKind]

/-- Witness for C2 exercising all branches: a `SetDefault` target
(direct and behind a pointer), a required hookless target, and a
non-required hookless pointer target. -/
theorem absent_dispatch_witness :
    parseValue envDflt 1 .invalid true (.intV tyDflt 0) = .ok (.intV tyDflt 7)
    ∧ parseValue envDflt 1 .invalid true (.ptrV (.ptr tyDflt) none)
        = .ok (.ptrV (.ptr tyDflt) (some (.intV tyDflt 7)))
    ∧ parseValue [] 1 .invalid true (.intV .int 0)
        = .err "inVal is nil but must be set" (.intV .int 0)
    ∧ parseValue [] 1 .invalid true (.ptrV (.ptr .bool) none)
        = .ok (.ptrV (.ptr .bool) (some (.boolV .bool false))) :=
  ⟨absent_dispatch.1 envDflt 0 (.intV tyDflt 0) (fun _ => .intV tyDflt 7) rfl rfl,
   absent_dispatch.2.1 envDflt 0 (.ptr tyDflt) none (fun _ => .intV tyDflt 7) rfl,
   absent_dispatch.2.2.1 [] 0 (.intV .int 0) rfl rfl,
   absent_dispatch.2.2.2 [] 0 (.ptr .bool) none rfl⟩

/-- The terminal `Int` case equals running the one-slot chain. -/
theorem caseInt_eval (h : Hooks) (n : Int) (out : GoVal) (fb : Res) :
    caseInt h n out fb = evalIntChain h n out fb [(64, Hooks.parseInt)] := by
  cases hh : h.parseInt <;> simp [caseInt, evalIntChain, hh]

/-- The `Int64` case equals running its two-slot chain. -/
theorem caseInt64_eval (h : Hooks) (n : Int) (out : GoVal) (fb : Res) :
    caseInt64 h n out fb
      = evalIntChain h n out fb [(64, Hooks.parseInt64), (64, Hooks.parseInt)] := by
  cases hh : h.parseInt64 <;> simp [caseInt64, evalIntChain, hh, caseInt_eval]

/-- The `Int32` case equals running its chain. -/
theorem caseInt32_eval (h : Hooks) (n : Int) (out : GoVal) (fb : Res) :
    caseInt32 h n out fb
      = evalIntChain h n out fb
          [(32, Hooks.parseInt32), (64, Hooks.parseInt64), (64, Hooks.parseInt)] := by
  cases hh : h.parseInt32 <;> simp [caseInt32, evalIntChain, hh, caseInt64_eval]

/-- The `Int16` case equals running its chain. -/
theorem caseInt16_eval (h : Hooks) (n : Int) (out : GoVal) (fb : Res) :
    caseInt16 h n out fb
      = evalIntChain h n out fb
          [(16, Hooks.parseInt16), (32, Hooks.parseInt32),
           (64, Hooks.parseInt64), (64, Hooks.parseInt)] := by
  cases hh : h.parseInt16 <;> simp [caseInt16, evalIntChain, hh, caseInt32_eval]

/-- The `Int8` case equals running the full signed chain. -/
theorem caseInt8_eval (h : Hooks) (n : Int) (out : GoVal) (fb : Res) :
    caseInt8 h n out fb
      = evalIntChain h n out fb
          [(8, Hooks.parseInt8), (16, Hooks.parseInt16), (32, Hooks.parseInt32),
           (64, Hooks.parseInt64), (64, Hooks.parseInt)] := by
  cases hh : h.parseInt8 <;> simp [caseInt8, evalIntChain, hh, caseInt16_eval]

/-- The `Uint64` case equals running its one-slot chain. -/
theorem caseUint64_eval (h : Hooks) (n : Nat) (out : GoVal) (fb : Res) :
    caseUint64 h n out fb = evalUintChain h n out fb [(64, Hooks.parseUint64)] := by
  cases hh : h.parseUint64 <;> simp [caseUint64, evalUintChain, hh]

/-- The `Uint32` case equals running its chain. -/
theorem caseUint32_eval (h : Hooks) (n : Nat) (out : GoVal) (fb : Res) :
    caseUint32 h n out fb
      = evalUintChain h n out fb [(32, Hooks.parseUint32), (64, Hooks.parseUint64)] := by
  cases hh : h.parseUint32 <;> simp [caseUint32, evalUintChain, hh, caseUint64_eval]

/-- The `Uint16` case equals running its chain. -/
theorem caseUint16_eval (h : Hooks) (n : Nat) (out : GoVal) (fb : Res) :
    caseUint16 h n out fb
      = evalUintChain h n out fb
          [(16, Hooks.parseUint16), (32, Hooks.parseUint32), (64, Hooks.parseUint64)] := by
  cases hh : h.parseUint16 <;> simp [caseUint16, evalUintChain, hh, caseUint32_eval]

/-- The `Uint8` case equals running the full unsigned chain. -/
theorem caseUint8_eval (h : Hooks) (n : Nat) (out : GoVal) (fb : Res) :
    caseUint8 h n out fb
      = evalUintChain h n out fb
          [(8, Hooks.parseUint8), (16, Hooks.parseUint16),
           (32, Hooks.parseUint32), (64, Hooks.parseUint64)] := by
  cases hh : h.parseUint8 <;> simp [caseUint8, evalUintChain, hh, caseUint16_eval]

/-- The `Float64` case equals running its one-slot chain. -/
theorem caseFloat64_eval (h : Hooks) (x : Int) (out : GoVal) (fb : Res) :
    caseFloat64 h x out fb = evalFloatChain h x out fb [Hooks.parseFloat64] := by
  cases hh : h.parseFloat64 <;> simp [caseFloat64, evalFloatChain, hh]

/-- The `Float32` case equals running the float chain. -/
theorem caseFloat32_eval (h : Hooks) (x : Int) (out : GoVal) (fb : Res) :
    caseFloat32 h x out fb
      = evalFloatChain h x out fb [Hooks.parseFloat32, Hooks.parseFloat64] := by
  cases hh : h.parseFloat32 <;> simp [caseFloat32, evalFloatChain, hh, caseFloat64_eval]

/-- C3: primitive hook dispatch runs the narrowest-first, widen-on-miss
preference chains: int8→int16→int32→int64→Int and likewise for the
narrower signed kinds; uint8→uint16→uint32→uint64 (the source defines
no generic `ParseUint`, so the unsigned chains end at `ParseUint64` and
never reach a signed hook — an input of kind `uint` itself consults no
hook and goes straight to the conversion fallback); and
float32→float64.  In particular a target implementing both `ParseInt8`
and `ParseInt32` has `ParseInt8` invoked for an int8-kind input. -/
theorem numeric_hook_chains :
    (∀ (env : HookEnv) (t : GoType) (n : Int) (out : GoVal),
       t.kind = Kind.int8 →
       parsePrimitive env (.intV t n) out
         = evalIntChain (hooksOf env out.type) n out
             (primFallback (.intV t n) out) (signedHookChain Kind.int8))
    ∧ (∀ (env : HookEnv) (t : GoType) (n : Int) (out : GoVal),
       t.kind = Kind.int16 →
       parsePrimitive env (.intV t n) out
         = evalIntChain (hooksOf env out.type) n out
             (primFallback (.intV t n) out) (signedHookChain Kind.int16))
    ∧ (∀ (env : HookEnv) (t : GoType) (n : Int) (out : GoVal),
       t.kind = Kind.int32 →
       parsePrimitive env (.intV t n) out
         = evalIntChain (hooksOf env out.type) n out
             (primFallback (.intV t n) out) (signedHookChain Kind.int32))
    ∧ (∀ (env : HookEnv) (t : GoType) (n : Int) (out : GoVal),
       t.kind = Kind.int64 →
       parsePrimitive env (.intV t n) out
         = evalIntChain (hooksOf env out.type) n out
             (primFallback (.intV t n) out) (signedHookChain Kind.int64))
    ∧ (∀ (env : HookEnv) (t : GoType) (n : Int) (out : GoVal),
       t.kind = Kind.int →
       parsePrimitive env (.intV t n) out
         = evalIntChain (hooksOf env out.type) n out
             (primFallback (.intV t n) out) (signedHookChain Kind.int))
    ∧ (∀ (env : HookEnv) (t : GoType) (n : Nat) (out : GoVal),
       t.kind = Kind.uint8 →
       parsePrimitive env (.uintV t n) out
         = evalUintChain (hooksOf env out.type) n out
             (primFallback (.uintV t n) out) (unsignedHookChain Kind.uint8))
    ∧ (∀ (env : HookEnv) (t : GoType) (n : Nat) (out : GoVal),
       t.kind = Kind.uint16 →
       parsePrimitive env (.uintV t n) out
         = evalUintChain (hooksOf env out.type) n out
             (primFallback (.uintV t n) out) (unsignedHookChain Kind.uint16))
    ∧ (∀ (env : HookEnv) (t : GoType) (n : Nat) (out : GoVal),
       t.kind = Kind.uint32 →
       parsePrimitive env (.uintV t n) out
         = evalUintChain (hooksOf env out.type) n out
             (primFallback (.uintV t n) out) (unsignedHookChain Kind.uint32))
    ∧ (∀ (env : HookEnv) (t : GoType) (n : Nat) (out : GoVal),
       t.kind = Kind.uint64 →
       parsePrimitive env (.uintV t n) out
         = evalUintChain (hooksOf env out.type) n out
             (primFallback (.uintV t n) out) (unsignedHookChain Kind.uint64))
    ∧ (∀ (env : HookEnv) (t : GoType) (n : Nat) (out : GoVal),
       t.kind = Kind.uint →
       parsePrimitive env (.uintV t n) out = primFallback (.uintV t n) out)
    ∧ (∀ (env : HookEnv) (t : GoType) (x : Int) (out : GoVal),
       t.kind = Kind.float32 →
       parsePrimitive env (.floatV t x) out
         = evalFloatChain (hooksOf env out.type) x out
             (primFallback (.floatV t x) out) (floatHookChain Kind.float32))
    ∧ (∀ (env : HookEnv) (t : GoType) (x : Int) (out : GoVal),
       t.kind = Kind.float64 →
       parsePrimitive env (.floatV t x) out
         = evalFloatChain (hooksOf env out.type) x out
             (primFallback (.floatV t x) out) (floatHookChain Kind.float64)) := by
  refine ⟨?_, ?_, ?_, ?_, ?_, ?_, ?_, ?_, ?_, ?_, ?_, ?_⟩ <;>
    intro env t n out h <;>
    simp [parsePrimitive, GoVal.kind, GoVal.type, h, isPrimitive,
      signedHookChain, unsignedHookChain, floatHookChain,
      caseInt8_eval, caseInt16_eval, caseInt32_eval, caseInt64_eval, caseInt_eval,
      caseUint8_eval, caseUint16_eval, caseUint32_eval, caseUint64_eval,
      caseFloat32_eval, caseFloat64_eval]

/-- Witness for C3: with `Probe` implementing both `ParseInt8` and
`ParseInt32`, an int8-kind input follows the int8 chain, and concretely
`ParseInt8` (not `ParseInt32`) fires; with only `ParseInt32`
implemented, the same input widens to `ParseInt32`; a uint64-kind input
with only a signed `ParseInt` implemented consults no hook and falls
back to plain conversion. -/
theorem numeric_hook_chains_witness :
    parsePrimitive envProbe (.intV .int8 5) (.intV tyProbe 0)
      = evalIntChain (hooksOf envProbe tyProbe) 5 (.intV tyProbe 0)
          (primFallback (.intV .int8 5) (.intV tyProbe 0)) (signedHookChain Kind.int8)
    ∧ parsePrimitive envProbe (.intV .int8 5) (.intV tyProbe 0) = .ok (probeMark 8)
    ∧ parsePrimitive
        [("Probe", { noHooks with parseInt32 := some (fun _ _ => .ok (probeMark 32)) })]
        (.intV .int8 5) (.intV tyProbe 0) = .ok (probeMark 32)
    ∧ parsePrimitive
        [("Probe", { noHooks with parseInt := some (fun _ _ => .ok (probeMark 0)) })]
        (.uintV .uint64 5) (.intV tyProbe 0) = .ok (.intV tyProbe 5) :=
  ⟨numeric_hook_chains.1 envProbe .int8 5 (.intV tyProbe 0) rfl, rfl, rfl, rfl⟩

/-- Every recoverable error the struct field loop produces is wrapped
with a field name. -/
theorem structFields_err_shape (recur : GoVal → GoVal → Res)
    (entries : List (GoVal × GoVal)) :
    ∀ (fs : GoFields) (vs : List GoVal) (e : String) (w : List GoVal),
      parseMapToStructFields recur entries fs vs = .err e w →
      ∃ name e0, e = "error parsing field " ++ name ++ ": " ++ e0
  | .nil, vs, e, w => by simp [parseMapToStructFields]
  | .cons f tg st ty rest, [], e, w => by simp [parseMapToStructFields]
  | .cons f tg st ty rest, v :: vs, e, w => by
      intro h
      simp only [parseMapToStructFields] at h
      cases st with
      | false =>
          simp only [Bool.false_eq_true, if_false] at h
          cases hr : parseMapToStructFields recur entries rest vs with
          | ok vs' => rw [hr] at h; simp at h
          | err e' vs' =>
              rw [hr] at h
              simp at h
              obtain ⟨he, -⟩ := h
              obtain ⟨name, e0, hs⟩ := structFields_err_shape recur entries rest vs e' vs' hr
              exact ⟨name, e0, by rw [← he, hs]⟩
          | panic m => rw [hr] at h; simp at h
      | true =>
          simp only [if_true] at h
          cases hrec : recur (mapIndexStr entries (if tg = "" then f else tg)) v with
          | ok v' =>
              rw [hrec] at h
              cases hr : parseMapToStructFields recur entries rest vs with
              | ok vs' => rw [hr] at h; simp at h
              | err e' vs' =>
                  rw [hr] at h
                  simp at h
                  obtain ⟨he, -⟩ := h
                  obtain ⟨name, e0, hs⟩ := structFields_err_shape recur entries rest vs e' vs' hr
                  exact ⟨name, e0, by rw [← he, hs]⟩
              | panic m => rw [hr] at h; simp at h
          | err e0 v' =>
              rw [hrec] at h
              simp at h
              obtain ⟨he, -⟩ := h
              exact ⟨(if tg = "" then f else tg), e0, he.symm⟩
          | panic m => rw [hrec] at h; simp at h
termination_by structural fs => fs


/-- C4: map→struct conversion walks the declared fields in order:
an exhausted field list succeeds; a non-settable field is skipped
without error, its slot untouched; a settable field looks up the map
entry under its `parse` tag when the tag is non-empty and under the
field's own name otherwise, a missing key yielding the absent value
rather than an error; a successful field conversion proceeds to the
remaining fields; the first failing field aborts the whole struct
conversion with the field's lookup name wrapped into the error, the
remaining slots untouched — and every error the struct conversion
returns is so wrapped. -/
theorem map_to_struct_traversal :
    (∀ (recur : GoVal → GoVal → Res) (entries : List (GoVal × GoVal)) (vs : List GoVal),
       parseMapToStructFields recur entries .nil vs = .ok vs)
    ∧ (∀ (recur : GoVal → GoVal → Res) (entries : List (GoVal × GoVal))
         (fname tag : String) (ty : GoType) (rest : GoFields) (v : GoVal) (vs : List GoVal),
       parseMapToStructFields recur entries (.cons fname tag false ty rest) (v :: vs)
         = prependRes v (parseMapToStructFields recur entries rest vs))
    ∧ (∀ (recur : GoVal → GoVal → Res) (entries : List (GoVal × GoVal))
         (fname tag : String) (ty : GoType) (rest : GoFields) (v v' : GoVal) (vs : List GoVal),
       recur (mapIndexStr entries (if tag = "" then fname else tag)) v = .ok v' →
       parseMapToStructFields recur entries (.cons fname tag true ty rest) (v :: vs)
         = prependRes v' (parseMapToStructFields recur entries rest vs))
    ∧ (∀ (recur : GoVal → GoVal → Res) (entries : List (GoVal × GoVal))
         (fname tag : String) (ty : GoType) (rest : GoFields) (v v' : GoVal)
         (vs : List GoVal) (e : String),
       recur (mapIndexStr entries (if tag = "" then fname else tag)) v = .err e v' →
       parseMapToStructFields recur entries (.cons fname tag true ty rest) (v :: vs)
         = .err ("error parsing field " ++ (if tag = "" then fname else tag) ++ ": " ++ e)
             (v' :: vs))
    ∧ (∀ (pairs : List (String × GoVal)) (name : String),
       (∀ p ∈ pairs, p.1 ≠ name) →
       mapIndexStr (pairs.map fun p => (GoVal.stringV .string p.1, p.2)) name = .invalid)
    ∧ (∀ (recur : GoVal → GoVal → Res) (tm : GoType) (es : List (GoVal × GoVal))
         (t : GoType) (fvals : List GoVal) (e : String) (w : GoVal),
       parseMapToStruct recur (.mapV tm es) (.structV t fvals) = .err e w →
       ∃ (name e0 : String) (vs : List GoVal),
         e = "error parsing field " ++ name ++ ": " ++ e0 ∧ w = .structV t vs) := by
  refine ⟨?_, ?_, ?_, ?_, ?_, ?_⟩
  · intro recur entries vs
    simp [parseMapToStructFields]
  · intro recur entries fname tag ty rest v vs
    cases hr : parseMapToStructFields recur entries rest vs <;>
      simp [parseMapToStructFields, prependRes, hr]
  · intro recur entries fname tag ty rest v v' vs hrec
    cases hr : parseMapToStructFields recur entries rest vs <;>
      simp [parseMapToStructFields, prependRes, hr, hrec]
  · intro recur entries fname tag ty rest v v' vs e hrec
    simp [parseMapToStructFields, hrec]
  · intro pairs name hne
    induction pairs with
    | nil => simp [mapIndexStr]
    | cons p rest ih =>
        obtain ⟨s, v⟩ := p
        have hs : s ≠ name := hne (s, v) (List.mem_cons_self _ _)
        have ihr := ih (fun q hq => hne q (List.mem_cons_of_mem _ hq))
        simpa [mapIndexStr, hs] using ihr
  · intro recur tm es t fvals e w h
    unfold parseMapToStruct at h
    split at h
    · simp at h
    · split at h
      · simp at h
      · have h' : (match parseMapToStructFields recur es t.structFields fvals with
            | PRes.ok vs => PRes.ok (GoVal.structV t vs)
            | PRes.err e0 vs => PRes.err e0 (GoVal.structV t vs)
            | PRes.panic m => PRes.panic m) = PRes.err e w := h
        cases hr : parseMapToStructFields recur es t.structFields fvals with
        | ok vs => rw [hr] at h'; simp at h'
        | err e' vs =>
            rw [hr] at h'
            simp at h'
            obtain ⟨he, hw⟩ := h'
            obtain ⟨name, e0, hs⟩ :=
              structFields_err_shape recur es t.structFields fvals e' vs hr
            exact ⟨name, e0, vs, by rw [← he, hs], hw.symm⟩
        | panic m => rw [hr] at h'; simp at h'

/-- Witness for C4: a tagged settable field is looked up under its tag
and converted; a field whose key is missing is converted as absent and,
being required, aborts the struct with the field name wrapped; a lookup
among other keys is absent. -/
theorem map_to_struct_traversal_witness :
    parseMapToStructFields (fun i o => parseValue [] 2 i true o)
        [(GoVal.stringV .string "a", GoVal.stringV .string "x")]
        (.cons "A" "a" true .string .nil) [.stringV .string ""]
      = .ok [.stringV .string "x"]
    ∧ parseMapToStructFields (fun i o => parseValue [] 2 i true o)
        [(GoVal.stringV .string "a", GoVal.stringV .string "x")]
        (.cons "B" "" true .int .nil) [.intV .int 0]
      = .err "error parsing field B: inVal is nil but must be set" [.intV .int 0]
    ∧ mapIndexStr [(GoVal.stringV .string "k", GoVal.intV .int 1)] "B" = .invalid :=
  ⟨map_to_struct_traversal.2.2.1 (fun i o => parseValue [] 2 i true o)
      [(GoVal.stringV .string "a", GoVal.stringV .string "x")]
      "A" "a" .string .nil (.stringV .string "") (.stringV .string "x") [] rfl,
   map_to_struct_traversal.2.2.2.1 (fun i o => parseValue [] 2 i true o)
      [(GoVal.stringV .string "a", GoVal.stringV .string "x")]
      "B" "" .int .nil (.intV .int 0) (.intV .int 0) []
      "inVal is nil but must be set" rfl,
   map_to_struct_traversal.2.2.2.2.1 [("k", GoVal.intV .int 1)] "B" (by decide)⟩

/-- C5: list→array conversion rejects input longer than the array with
the capacity error before mutating any element (the target is returned
exactly as it was); within capacity it converts index-by-index — an
in-range index from the input element, an index beyond the input's
length from the absent value — each element error being wrapped with
its index, and the loop otherwise proceeding in order. -/
theorem slice_to_array_capacity :
    (∀ (recur : GoVal → GoVal → Res) (ts : GoType) (xs : List GoVal)
       (tOut : GoType) (os : List GoVal),
       ts.kind = Kind.slice → tOut.kind = Kind.array →
       xs.length > os.length →
       parseSliceToArray recur (.sliceV ts xs) (.arrayV tOut os)
         = .err ("input slice (length " ++ toString xs.length
             ++ ") is longer than output array (length " ++ toString os.length ++ ")")
             (.arrayV tOut os))
    ∧ (∀ (recur : GoVal → GoVal → Res) (x : GoVal) (xs : List GoVal)
         (o : GoVal) (os : List GoVal) (i : Nat) (v' : GoVal),
       recur x o = .ok v' →
       parseSliceToArrayElems recur (x :: xs) (o :: os) i
         = prependRes v' (parseSliceToArrayElems recur xs os (i + 1)))
    ∧ (∀ (recur : GoVal → GoVal → Res) (x : GoVal) (xs : List GoVal)
         (o : GoVal) (os : List GoVal) (i : Nat) (e : String) (v' : GoVal),
       recur x o = .err e v' →
       parseSliceToArrayElems recur (x :: xs) (o :: os) i
         = .err ("error parsing element at index " ++ toString i ++ ": " ++ e) (v' :: os))
    ∧ (∀ (recur : GoVal → GoVal → Res) (o : GoVal) (os : List GoVal) (i : Nat) (v' : GoVal),
       recur .invalid o = .ok v' →
       parseSliceToArrayElems recur [] (o :: os) i
         = prependRes v' (parseSliceToArrayElems recur [] os (i + 1)))
    ∧ (∀ (recur : GoVal → GoVal → Res) (o : GoVal) (os : List GoVal) (i : Nat)
         (e : String) (v' : GoVal),
       recur .invalid o = .err e v' →
       parseSliceToArrayElems recur [] (o :: os) i
         = .err ("error parsing element at index " ++ toString i ++ ": " ++ e) (v' :: os))
    ∧ (∀ (recur : GoVal → GoVal → Res) (ts : GoType) (xs : List GoVal)
         (tOut : GoType) (os : List GoVal),
       ts.kind = Kind.slice → tOut.kind = Kind.array →
       ¬ xs.length > os.length →
       parseSliceToArray recur (.sliceV ts xs) (.arrayV tOut os)
         = (match parseSliceToArrayElems recur xs os 0 with
            | .ok vs => .ok (.arrayV tOut vs)
            | .err e vs => .err e (.arrayV tOut vs)
            | .panic m => .panic m)) := by
  refine ⟨?_, ?_, ?_, ?_, ?_, ?_⟩
  · intro recur ts xs tOut os h1 h2 h3
    simp [parseSliceToArray, GoVal.kind, GoVal.type, h1, h2, h3]
  · intro recur x xs o os i v' hrec
    cases hr : parseSliceToArrayElems recur xs os (i + 1) <;>
      simp [parseSliceToArrayElems, prependRes, hrec, hr]
  · intro recur x xs o os i e v' hrec
    simp [parseSliceToArrayElems, hrec]
  · intro recur o os i v' hrec
    cases hr : parseSliceToArrayElems recur [] os (i + 1) <;>
      simp [parseSliceToArrayElems, prependRes, hrec, hr]
  · intro recur o os i e v' hrec
    simp [parseSliceToArrayElems, hrec]
  · intro recur ts xs tOut os h1 h2 h3
    simp [parseSliceToArray, GoVal.kind, GoVal.type, h1, h2, h3]

/-- Witness for C5: a 5-element list into a 3-slot array fails with the
capacity error and the array slots are exactly as before; a 1-element
list into a 3-slot array converts index 0 from the input and the
remaining indices from the absent value (`*int` slots staying
allocated-zero). -/
theorem slice_to_array_capacity_witness :
    parseSliceToArray (fun i o => parseValue [] 2 i true o)
        (.sliceV (.slice .int)
          [.intV .int 1, .intV .int 2, .intV .int 3, .intV .int 4, .intV .int 5])
        (.arrayV (.array 3 .int) [.intV .int 0, .intV .int 0, .intV .int 0])
      = .err "input slice (length 5) is longer than output array (length 3)"
          (.arrayV (.array 3 .int) [.intV .int 0, .intV .int 0, .intV .int 0])
    ∧ parseSliceToArrayElems (fun i o => parseValue [] 2 i true o)
        [GoVal.intV .int 9]
        [GoVal.ptrV (.ptr .int) none, GoVal.ptrV (.ptr .int) none] 0
      = .ok [.ptrV (.ptr .int) (some (.intV .int 9)),
             .ptrV (.ptr .int) (some (.intV .int 0))] :=
  ⟨slice_to_array_capacity.1 (fun i o => parseValue [] 2 i true o) (.slice .int)
      [.intV .int 1, .intV .int 2, .intV .int 3, .intV .int 4, .intV .int 5]
      (.array 3 .int) [.intV .int 0, .intV .int 0, .intV .int 0]
      rfl rfl (by decide),
   slice_to_array_capacity.2.1 (fun i o => parseValue [] 2 i true o)
      (GoVal.intV .int 9) [] (GoVal.ptrV (.ptr .int) none) [GoVal.ptrV (.ptr .int) none] 0
      (.ptrV (.ptr .int) (some (.intV .int 9))) rfl⟩

/-- C6 counterexample: a value-conversion failure in map→map conversion
reports the offending value, not the offending key — the key ("zzz")
appears nowhere in the returned error. -/
theorem map_entry_error_key_counterexample :
    parseValue [] 3
        (.mapV (.mapT .string .string)
          [(.stringV .string "zzz", .stringV .string "boom")]) true
        (zeroVal (.mapT .string .int))
      = .err "error parsing map value boom: inVal string is not parseable to outVal int"
          (.mapV (.mapT .string .int) [])
    ∧ strContains
        "error parsing map value boom: inVal string is not parseable to outVal int"
        "zzz" = false := ⟨rfl, rfl⟩

/-- C6 (amended): in map→map conversion a failure converting any
entry's key or any entry's value aborts the whole map conversion with
the target left exactly as it was; a key failure is reported with the
offending key identified in the error, while a value failure is
reported with the offending value (not the key) identified. -/
theorem map_entry_error_reporting :
    (∀ (recur : GoVal → GoVal → Res) (kT vT : GoType) (k v : GoVal)
       (rest : List (GoVal × GoVal)) (e : String) (w : GoVal),
       recur k (zeroVal kT) = .err e w →
       parseMapToMapEntries recur kT vT ((k, v) :: rest)
         = .err ("error parsing map key " ++ fmtVal k ++ ": " ++ e) [])
    ∧ (∀ (recur : GoVal → GoVal → Res) (kT vT : GoType) (k v k' : GoVal)
         (rest : List (GoVal × GoVal)) (e : String) (w : GoVal),
       recur k (zeroVal kT) = .ok k' →
       recur v (zeroVal vT) = .err e w →
       parseMapToMapEntries recur kT vT ((k, v) :: rest)
         = .err ("error parsing map value " ++ fmtVal v ++ ": " ++ e) [])
    ∧ (∀ (recur : GoVal → GoVal → Res) (kT vT : GoType) (k v k' v' : GoVal)
         (rest : List (GoVal × GoVal)),
       recur k (zeroVal kT) = .ok k' →
       recur v (zeroVal vT) = .ok v' →
       parseMapToMapEntries recur kT vT ((k, v) :: rest)
         = prependEntryRes (k', v') (parseMapToMapEntries recur kT vT rest))
    ∧ (∀ (recur : GoVal → GoVal → Res) (tm : GoType) (es : List (GoVal × GoVal))
         (tOut : GoType) (oldEs : List (GoVal × GoVal)) (e : String) (w : GoVal),
       parseMapToMap recur (.mapV tm es) (.mapV tOut oldEs) = .err e w →
       w = .mapV tOut oldEs) := by
  refine ⟨?_, ?_, ?_, ?_⟩
  · intro recur kT vT k v rest e w hk
    simp [parseMapToMapEntries, hk]
  · intro recur kT vT k v k' rest e w hk hv
    simp [parseMapToMapEntries, hk, hv]
  · intro recur kT vT k v k' v' rest hk hv
    cases hr : parseMapToMapEntries recur kT vT rest <;>
      simp [parseMapToMapEntries, prependEntryRes, hk, hv, hr]
  · intro recur tm es tOut oldEs e w h
    unfold parseMapToMap at h
    split at h
    · simp at h
    · split at h
      · simp at h
      · have h' : (match parseMapToMapEntries recur tOut.keyT tOut.valT es with
            | PRes.ok es2 => PRes.ok (GoVal.mapV tOut es2)
            | PRes.err e0 _ => PRes.err e0 (GoVal.mapV tOut oldEs)
            | PRes.panic m => PRes.panic m) = PRes.err e w := h
        cases hr : parseMapToMapEntries recur tOut.keyT tOut.valT es with
        | ok es2 => rw [hr] at h'; simp at h'
        | err e0 es2 =>
            rw [hr] at h'
            simp at h'
            exact h'.2.symm
        | panic m => rw [hr] at h'; simp at h'

/-- Witness for C6: a key failure names the key, a value failure names
the value, and a successful entry proceeds to the rest. -/
theorem map_entry_error_reporting_witness :
    parseMapToMapEntries (fun i o => parseValue [] 2 i true o) .int .int
        [(GoVal.stringV .string "bad", GoVal.intV .int 1)]
      = .err "error parsing map key bad: inVal string is not parseable to outVal int" []
    ∧ parseMapToMapEntries (fun i o => parseValue [] 2 i true o) .string .int
        [(GoVal.stringV .string "k1", GoVal.stringV .string "boom")]
      = .err "error parsing map value boom: inVal string is not parseable to outVal int" []
    ∧ parseMapToMapEntries (fun i o => parseValue [] 2 i true o) .string .int
        [(GoVal.stringV .string "k1", GoVal.intV .int 4)]
      = prependEntryRes (GoVal.stringV .string "k1", GoVal.intV .int 4)
          (parseMapToMapEntries (fun i o => parseValue [] 2 i true o) .string .int []) :=
  ⟨map_entry_error_reporting.1 (fun i o => parseValue [] 2 i true o) .int .int
      (GoVal.stringV .string "bad") (GoVal.intV .int 1) []
      "inVal string is not parseable to outVal int" (GoVal.intV .int 0) rfl,
   map_entry_error_reporting.2.1 (fun i o => parseValue [] 2 i true o) .string .int
      (GoVal.stringV .string "k1") (GoVal.stringV .string "boom")
      (GoVal.stringV .string "k1") []
      "inVal string is not parseable to outVal int" (GoVal.intV .int 0) rfl rfl,
   map_entry_error_reporting.2.2.1 (fun i o => parseValue [] 2 i true o) .string .int
      (GoVal.stringV .string "k1") (GoVal.intV .int 4)
      (GoVal.stringV .string "k1") (GoVal.intV .int 4) [] rfl rfl⟩

/-- C9: when the target implements the whole-list `ParseSlice` hook,
the input slice's dynamic type is not `[]any`, and the
`ParseStringSlice` specialisation does not apply (the input is not a
`[]string`, or that hook is missing), `parseSlice` panics on the
unchecked `.([]any)` type assertion instead of returning an error or
recursing structurally. -/
theorem parse_slice_hook_assertion_panic
    (env : HookEnv) (recur : GoVal → GoVal → Res) (t : GoType) (xs : List GoVal)
    (out : GoVal) (f : List GoVal → GoVal → Except String GoVal)
    (hk : t.kind = Kind.slice)
    (hf : (hooksOf env out.type).parseSlice = some f)
    (hany : anySliceElems? (.sliceV t xs) = none)
    (hstr : stringSliceElems? (.sliceV t xs) = none
      ∨ (hooksOf env out.type).parseStringSlice = none) :
    parseSlice env recur (.sliceV t xs) out
      = .panic "interface conversion: input slice is not a slice of interface values" := by
  have hks : (GoVal.sliceV t xs).kind = Kind.slice := by
    simp [GoVal.kind, GoVal.type, hk]
  rcases hstr with hs | hs
  · cases hss : (hooksOf env out.type).parseStringSlice <;>
      simp only [parseSlice, hks, hf, hany, hs, hss, ne_eq, not_true_eq_false,
        if_false, reduceCtorEq]
  · cases hss : stringSliceElems? (.sliceV t xs) <;>
      simp only [parseSlice, hks, hf, hany, hs, hss, ne_eq, not_true_eq_false,
        if_false, reduceCtorEq]

/-- Witness for C9: a `[]int` input into a `ParseSlice`-implementing
target panics. -/
theorem parse_slice_hook_assertion_panic_witness :
    parseSlice envList (fun i o => parseValue [] 2 i true o)
        (.sliceV (.slice .int) [.intV .int 1]) (.sliceV tyList [])
      = .panic "interface conversion: input slice is not a slice of interface values" :=
  parse_slice_hook_assertion_panic envList (fun i o => parseValue [] 2 i true o)
    (.slice .int) [.intV .int 1] (.sliceV tyList [])
    (fun xs _ => .ok (.sliceV tyList xs)) rfl rfl rfl (Or.inl rfl)

/-- C10: map→map and slice→slice conversions build the output container
fresh and assign it only after every entry or element has converted:
on any failure the target location is returned exactly as it was, and a
successful conversion's result is the fresh container of the fully
converted entries, independent of whatever the target held before. -/
theorem composite_atomicity :
    (∀ (recur : GoVal → GoVal → Res) (tm : GoType) (es : List (GoVal × GoVal))
       (tOut : GoType) (oldEs : List (GoVal × GoVal)) (e : String) (w : GoVal),
       parseMapToMap recur (.mapV tm es) (.mapV tOut oldEs) = .err e w →
       w = .mapV tOut oldEs)
    ∧ (∀ (recur : GoVal → GoVal → Res) (ts : GoType) (xs : List GoVal)
         (tOut : GoType) (oldEs : List GoVal) (e : String) (w : GoVal),
       parseSliceToSlice recur (.sliceV ts xs) (.sliceV tOut oldEs) = .err e w →
       w = .sliceV tOut oldEs)
    ∧ (∀ (recur : GoVal → GoVal → Res) (tm : GoType) (es : List (GoVal × GoVal))
         (tOut : GoType) (oldEs : List (GoVal × GoVal)) (v : GoVal),
       parseMapToMap recur (.mapV tm es) (.mapV tOut oldEs) = .ok v →
       ∃ es2, v = .mapV tOut es2
         ∧ parseMapToMapEntries recur tOut.keyT tOut.valT es = .ok es2)
    ∧ (∀ (recur : GoVal → GoVal → Res) (ts : GoType) (xs : List GoVal)
         (tOut : GoType) (oldEs : List GoVal) (v : GoVal),
       parseSliceToSlice recur (.sliceV ts xs) (.sliceV tOut oldEs) = .ok v →
       ∃ vs, v = .sliceV tOut vs
         ∧ parseSliceToSliceElems recur tOut.elemT xs = .ok vs)
    ∧ (∀ (recur : GoVal → GoVal → Res) (tm : GoType) (es : List (GoVal × GoVal))
         (tOut : GoType) (a b : List (GoVal × GoVal)) (v : GoVal),
       tm.kind = Kind.map → tOut.kind = Kind.map →
       parseMapToMap recur (.mapV tm es) (.mapV tOut a) = .ok v →
       parseMapToMap recur (.mapV tm es) (.mapV tOut b) = .ok v)
    ∧ (∀ (recur : GoVal → GoVal → Res) (ts : GoType) (xs : List GoVal)
         (tOut : GoType) (a b : List GoVal) (v : GoVal),
       ts.kind = Kind.slice → tOut.kind = Kind.slice →
       parseSliceToSlice recur (.sliceV ts xs) (.sliceV tOut a) = .ok v →
       parseSliceToSlice recur (.sliceV ts xs) (.sliceV tOut b) = .ok v) := by
  refine ⟨?_, ?_, ?_, ?_, ?_, ?_⟩
  · intro recur tm es tOut oldEs e w h
    unfold parseMapToMap at h
    split at h
    · simp at h
    · split at h
      · simp at h
      · have h' : (match parseMapToMapEntries recur tOut.keyT tOut.valT es with
            | PRes.ok es2 => PRes.ok (GoVal.mapV tOut es2)
            | PRes.err e0 _ => PRes.err e0 (GoVal.mapV tOut oldEs)
            | PRes.panic m => PRes.panic m) = PRes.err e w := h
        cases hr : parseMapToMapEntries recur tOut.keyT tOut.valT es with
        | ok es2 => rw [hr] at h'; simp at h'
        | err e0 es2 => rw [hr] at h'; simp at h'; exact h'.2.symm
        | panic m => rw [hr] at h'; simp at h'
  · intro recur ts xs tOut oldEs e w h
    unfold parseSliceToSlice at h
    split at h
    · simp at h
    · split at h
      · simp at h
      · have h' : (match parseSliceToSliceElems recur tOut.elemT xs with
            | PRes.ok vs => PRes.ok (GoVal.sliceV tOut vs)
            | PRes.err e0 _ => PRes.err e0 (GoVal.sliceV tOut oldEs)
            | PRes.panic m => PRes.panic m) = PRes.err e w := h
        cases hr : parseSliceToSliceElems recur tOut.elemT xs with
        | ok vs => rw [hr] at h'; simp at h'
        | err e0 vs => rw [hr] at h'; simp at h'; exact h'.2.symm
        | panic m => rw [hr] at h'; simp at h'
  · intro recur tm es tOut oldEs v h
    unfold parseMapToMap at h
    split at h
    · simp at h
    · split at h
      · simp at h
      · have h' : (match parseMapToMapEntries recur tOut.keyT tOut.valT es with
            | PRes.ok es2 => PRes.ok (GoVal.mapV tOut es2)
            | PRes.err e0 _ => PRes.err e0 (GoVal.mapV tOut oldEs)
            | PRes.panic m => PRes.panic m) = PRes.ok v := h
        cases hr : parseMapToMapEntries recur tOut.keyT tOut.valT es with
        | ok es2 => rw [hr] at h'; simp at h'; exact ⟨es2, h'.symm, rfl⟩
        | err e0 es2 => rw [hr] at h'; simp at h'
        | panic m => rw [hr] at h'; simp at h'
  · intro recur ts xs tOut oldEs v h
    unfold parseSliceToSlice at h
    split at h
    · simp at h
    · split at h
      · simp at h
      · have h' : (match parseSliceToSliceElems recur tOut.elemT xs with
            | PRes.ok vs => PRes.ok (GoVal.sliceV tOut vs)
            | PRes.err e0 _ => PRes.err e0 (GoVal.sliceV tOut oldEs)
            | PRes.panic m => PRes.panic m) = PRes.ok v := h
        cases hr : parseSliceToSliceElems recur tOut.elemT xs with
        | ok vs => rw [hr] at h'; simp at h'; exact ⟨vs, h'.symm, rfl⟩
        | err e0 vs => rw [hr] at h'; simp at h'
        | panic m => rw [hr] at h'; simp at h'
  · intro recur tm es tOut a b v h1 h2 h
    simp only [parseMapToMap, GoVal.kind, GoVal.type, h1, h2] at h ⊢
    simp only [ne_eq, not_true_eq_false, if_false] at h ⊢
    cases hr : parseMapToMapEntries recur tOut.keyT tOut.valT es <;>
      rw [hr] at h <;> simp_all
  · intro recur ts xs tOut a b v h1 h2 h
    simp only [parseSliceToSlice, GoVal.kind, GoVal.type, h1, h2] at h ⊢
    simp only [ne_eq, not_true_eq_false, if_false] at h ⊢
    cases hr : parseSliceToSliceElems recur tOut.elemT xs <;>
      rw [hr] at h <;> simp_all

/-- Witness for C10: a failing value conversion leaves the target map
with exactly its previous entries, and a successful map conversion's
result does not depend on the target's previous entries. -/
theorem composite_atomicity_witness :
    (GoVal.mapV (.mapT .string .int) [(GoVal.stringV .string "o", GoVal.intV .int 9)]
      = .mapV (.mapT .string .int) [(GoVal.stringV .string "o", GoVal.intV .int 9)])
    ∧ parseMapToMap (fun i o => parseValue [] 2 i true o)
        (.mapV (.mapT .string .string) [(GoVal.stringV .string "a", GoVal.stringV .string "b")])
        (.mapV (.mapT .string .string) [(GoVal.stringV .string "z", GoVal.stringV .string "w")])
      = .ok (.mapV (.mapT .string .string)
          [(GoVal.stringV .string "a", GoVal.stringV .string "b")]) :=
  ⟨composite_atomicity.1 (fun i o => parseValue [] 2 i true o)
      (.mapT .string .string)
      [(GoVal.stringV .string "zzz", GoVal.stringV .string "boom")]
      (.mapT .string .int) [(GoVal.stringV .string "o", GoVal.intV .int 9)]
      "error parsing map value boom: inVal string is not parseable to outVal int"
      (.mapV (.mapT .string .int) [(GoVal.stringV .string "o", GoVal.intV .int 9)]) rfl,
   composite_atomicity.2.2.2.2.1 (fun i o => parseValue [] 2 i true o)
      (.mapT .string .string)
      [(GoVal.stringV .string "a", GoVal.stringV .string "b")]
      (.mapT .string .string) []
      [(GoVal.stringV .string "z", GoVal.stringV .string "w")]
      (.mapV (.mapT .string .string)
        [(GoVal.stringV .string "a", GoVal.stringV .string "b")])
      rfl rfl rfl⟩
